import Mathlib

/-!
Verification of the `ctlptl create registry` workflow
(`pkg/cmd/create_registry.go`): resource construction from flags,
the existence guard, the create invocation, and the output stage.

Go values returned by fallible calls are embedded as pairs
`Option α × Option GoError`, matching Go's multiple-return convention
(both components may be `none`/non-`none` independently).  The
side-effecting calls made by `run` are recorded in an event trace.
-/

namespace Ctlptl

/-- A Go `error` value.  The k8s apimachinery error taxonomy classifies
errors with `errors.IsNotFound`; we embed an error as its message plus
its classification under that predicate. -/
structure GoError where
  msg : String
  notFound : Bool
deriving DecidableEq, Repr

/-- `errors.IsNotFound` from the k8s error taxonomy: the dedicated
not-found classification consulted by the existence guard. -/
def IsNotFound (e : GoError) : Bool :=
  e.notFound

/-- `fmt.Errorf`: builds a plain error from a message.  A freshly
formatted error is never classified as not-found. -/
def fmtErrorf (s : String) : GoError :=
  { msg := s, notFound := false }

/-- Modelled from the spec: the type/kind identifier produced by
`registry.TypeMeta()` (in `pkg/registry`, outside `src/`), used by the
controller to validate and route the resource. -/
structure TypeMeta where
  kind : String
  apiVersion : String
deriving DecidableEq, Repr

/-- Modelled from the spec: the concrete value of `registry.TypeMeta()`.
Only its constancy matters to the workflow, never its contents. -/
def registryTypeMeta : TypeMeta :=
  { kind := "Registry", apiVersion := "ctlptl.dev/v1alpha1" }

/-- Modelled from the spec: `registry.DefaultRegistryImageRef`, the
well-known registry image reference used as the `--image` flag default. -/
def DefaultRegistryImageRef : String :=
  "docker.io/library/registry:2"

/-- Modelled from the spec: `api.RegistryProxySpec` (in `pkg/api`,
outside `src/`), the pull-through cache configuration: required remote
URL, optional basic-auth credentials, optional cache TTL. -/
structure RegistryProxySpec where
  remoteURL : String
  username : String
  password : String
  ttl : String
deriving DecidableEq, Repr

/-- Modelled from the spec: `api.Registry` (in `pkg/api`, outside
`src/`), restricted to the fields the workflow reads or writes:
type/kind identifier, name, port, listen address, image, and the
optional proxy sub-resource. -/
structure Registry where
  typeMeta : TypeMeta
  name : String
  port : Int
  listenAddress : String
  image : String
  proxy : Option RegistryProxySpec
deriving DecidableEq, Repr

/-- Modelled from the spec: `registry.FillDefaults` (in `pkg/registry`,
outside `src/`).  The defaulting step mutates the resource in place so
that every controller-required field is filled or explicitly
controller-defaultable downstream; per the spec it fills the image when
empty and touches neither `Name`, the type identifier, nor `Proxy`. -/
def FillDefaults (r : Registry) : Registry :=
  { r with image := if r.image = "" then DefaultRegistryImageRef else r.image }

/-- The zero-valued `api.Registry` with its type identifier set, as
built by `NewCreateRegistryOptions`. -/
def initialRegistry : Registry :=
  { typeMeta := registryTypeMeta
    name := ""
    port := 0
    listenAddress := ""
    image := ""
    proxy := none }

/-- The parsed values of the seven flags registered by `Command`.  Flag
parsing always yields a value (the registered default when the flag is
absent): `--port` defaults to `0`, `--listen-address` to `""`,
`--image` to `DefaultRegistryImageRef`, and the four proxy flags
to `""`. -/
structure Flags where
  port : Int
  listenAddress : String
  image : String
  proxyRemoteURL : String
  proxyUsername : String
  proxyPassword : String
  proxyTTL : String
deriving DecidableEq, Repr

/-- The flag values when every flag is left unset. -/
def defaultFlags : Flags :=
  { port := 0
    listenAddress := ""
    image := DefaultRegistryImageRef
    proxyRemoteURL := ""
    proxyUsername := ""
    proxyPassword := ""
    proxyTTL := "" }

/-- Flag binding in `Command`: `--port`, `--listen-address` and
`--image` write directly into `o.Registry`. -/
def bindFlags (f : Flags) (r : Registry) : Registry :=
  { r with port := f.port, listenAddress := f.listenAddress, image := f.image }

/-- The `PreRun` hook installed by `Command`: the proxy sub-resource is
assembled as one unit, if and only if `--proxy-remote-url` is
non-empty, copying all four proxy flag values verbatim. -/
def preRun (f : Flags) (r : Registry) : Registry :=
  if f.proxyRemoteURL ≠ "" then
    { r with proxy := some { remoteURL := f.proxyRemoteURL
                             username := f.proxyUsername
                             password := f.proxyPassword
                             ttl := f.proxyTTL } }
  else
    r

/-- The resource value held in `o.Registry` when `run` starts: the
construction-time value, after flag binding and the `PreRun` hook. -/
def buildRegistry (f : Flags) : Registry :=
  preRun f (bindFlags f initialRegistry)

/-- The observable calls `run` makes, in order. -/
inductive Event where
  | incr (counter : String)
  | getCall (name : String)
  | applyCall (r : Registry)
  | printObj (r : Option Registry)
  | flush (seconds : Nat)
deriving DecidableEq, Repr

/-- The registries passed to `controller.Apply`, in call order. -/
def applyCalls (t : List Event) : List Registry :=
  t.filterMap fun e =>
    match e with
    | Event.applyCall r => some r
    | _ => none

/-- The `registryCreator` interface: the two-operation controller
contract.  Each operation returns a Go pair (value, error); either
component may independently be `none`. -/
structure Controller where
  get : String → Option Registry × Option GoError
  apply : Registry → Option Registry × Option GoError

/-- The environment `run` executes against: the outcome of
`newAnalytics`, the controller, the outcome of
`o.PrintFlags.ToPrinter()`, and (modelled from the spec, since the
analytics client lives outside `src/`) the internal outcomes of the
usage-counter emission and of the bounded flush, both of which the
code discards. -/
structure RunEnv where
  newAnalytics : Option GoError
  controller : Controller
  toPrinter : Except GoError (Option Registry → Option GoError)
  incrOutcome : Option GoError
  flushOutcome : Option GoError

/-- What `run` produces: the returned error (or `none` on success), the
final state of `o.Registry`, and the trace of observable calls. -/
structure RunResult where
  err : Option GoError
  reg : Registry
  trace : List Event
deriving Repr

/-- `CreateRegistryOptions.run`, embedded line by line:
acquire analytics (propagating its error), count the command and defer
a one-second flush, assign the name, fill defaults, run the existence
guard over `Get`, invoke `Apply`, build the printer, and print the
applied resource. -/
def run (env : RunEnv) (o : Registry) (name : String) : RunResult :=
  match env.newAnalytics with
  | some e => { err := some e, reg := o, trace := [] }
  | none =>
    let t0 := [Event.incr "cmd.create.registry"]
    let r := FillDefaults { o with name := name }
    let gres := env.controller.get r.name
    let t1 := t0 ++ [Event.getCall r.name]
    match gres.2 with
    | none =>
      { err := some (fmtErrorf "Cannot create registry: already exists")
        reg := r
        trace := t1 ++ [Event.flush 1] }
    | some e =>
      if IsNotFound e = false then
        { err := some (fmtErrorf ("Cannot check registry: " ++ e.msg))
          reg := r
          trace := t1 ++ [Event.flush 1] }
      else
        let ares := env.controller.apply r
        let t2 := t1 ++ [Event.applyCall r]
        match ares.2 with
        | some e2 => { err := some e2, reg := r, trace := t2 ++ [Event.flush 1] }
        | none =>
          match env.toPrinter with
          | Except.error e3 =>
            { err := some e3, reg := r, trace := t2 ++ [Event.flush 1] }
          | Except.ok p =>
            { err := p ares.1
              reg := r
              trace := t2 ++ [Event.printObj ares.1, Event.flush 1] }

/-! Concrete fixtures used by the closed witness statements. -/

/-- A printer whose `PrintObj` always succeeds. -/
def okPrinter : Option Registry → Option GoError :=
  fun _ => none

/-- A controller error classified as not-found. -/
def notFoundErr : GoError :=
  { msg := "registry not found", notFound := true }

/-- A controller error that is not classified as not-found. -/
def connRefusedErr : GoError :=
  { msg := "connection refused", notFound := false }

/-- An opaque error from the analytics, controller, or printer side. -/
def boomErr : GoError :=
  { msg := "boom", notFound := false }

/-- A controller whose `Get` reports not-found and whose `Apply`
succeeds, echoing the submitted resource. -/
def happyController : Controller :=
  { get := fun _ => (none, some notFoundErr)
    apply := fun r => (some r, none) }

/-- The all-succeeding environment. -/
def happyEnv : RunEnv :=
  { newAnalytics := none
    controller := happyController
    toPrinter := Except.ok okPrinter
    incrOutcome := none
    flushOutcome := none }

/-- An environment whose `Get` succeeds, i.e. the resource exists. -/
def foundEnv : RunEnv :=
  { happyEnv with
      controller := { happyController with
                        get := fun _ => (some initialRegistry, none) } }

/-- C1: the existence guard classifies `Get`'s outcome three ways: a nil
error yields the already-exists failure with no `Apply` call; a non-nil
error not classified not-found yields the Cannot-check failure wrapping
the original message with no `Apply` call; a not-found error lets the
workflow proceed to exactly one `Apply` call. -/
theorem existence_guard_classification (env : RunEnv) (o : Registry) (n : String)
    (hA : env.newAnalytics = none) :
    ((env.controller.get (FillDefaults { o with name := n }).name).2 = none →
      (run env o n).err = some (fmtErrorf "Cannot create registry: already exists") ∧
      applyCalls (run env o n).trace = []) ∧
    (∀ e, (env.controller.get (FillDefaults { o with name := n }).name).2 = some e →
      IsNotFound e = false →
      (run env o n).err = some (fmtErrorf ("Cannot check registry: " ++ e.msg)) ∧
      applyCalls (run env o n).trace = []) ∧
    (∀ e, (env.controller.get (FillDefaults { o with name := n }).name).2 = some e →
      IsNotFound e = true →
      applyCalls (run env o n).trace = [FillDefaults { o with name := n }]) := by
  refine ⟨?_, ?_, ?_⟩
  · intro hg
    simp [run, hA, hg, applyCalls]
  · intro e hg hnf
    simp [run, hA, hg, hnf, applyCalls]
  · intro e hg hnf
    rcases hap : (env.controller.apply (FillDefaults { o with name := n })).2 with _ | e2
    · rcases hp : env.toPrinter with e3 | p
      · simp [run, hA, hg, hnf, hap, hp, applyCalls]
      · simp [run, hA, hg, hnf, hap, hp, applyCalls]
    · simp [run, hA, hg, hnf, hap, applyCalls]

/-- Witness for C1 at a concrete input: with an all-succeeding `Get`,
`run` returns the already-exists error and never calls `Apply`. -/
theorem existence_guard_classification_witness :
    (run foundEnv initialRegistry "ctlptl-registry").err =
      some (fmtErrorf "Cannot create registry: already exists") ∧
    applyCalls (run foundEnv initialRegistry "ctlptl-registry").trace = [] :=
  (existence_guard_classification foundEnv initialRegistry "ctlptl-registry" rfl).1 rfl

/-- C2: whenever the guard reports not-found, `Apply` is invoked exactly
once, with the built resource: its name is the positional argument and
its proxy is present exactly when `--proxy-remote-url` was non-empty. -/
theorem apply_called_once_with_built_resource (env : RunEnv) (f : Flags) (n : String)
    (e : GoError)
    (hA : env.newAnalytics = none)
    (hg : (env.controller.get n).2 = some e)
    (hnf : IsNotFound e = true) :
    applyCalls (run env (buildRegistry f) n).trace =
      [FillDefaults { buildRegistry f with name := n }] ∧
    (FillDefaults { buildRegistry f with name := n }).name = n ∧
    ((FillDefaults { buildRegistry f with name := n }).proxy ≠ none ↔
      f.proxyRemoteURL ≠ "") := by
  have hname : (FillDefaults { buildRegistry f with name := n }).name = n := by
    simp [FillDefaults]
  refine ⟨?_, hname, ?_⟩
  · have := (existence_guard_classification env (buildRegistry f) n hA).2.2 e
      (by rw [hname]; exact hg) hnf
    exact this
  · by_cases h : f.proxyRemoteURL = "" <;>
      simp [FillDefaults, buildRegistry, preRun, bindFlags, initialRegistry, h]

/-- Witness for C2 at a concrete input: default flags, a not-found
guard, name equal to the positional argument, no proxy. -/
theorem apply_called_once_with_built_resource_witness :
    applyCalls (run happyEnv (buildRegistry defaultFlags) "ctlptl-registry").trace =
      [FillDefaults { buildRegistry defaultFlags with name := "ctlptl-registry" }] ∧
    (FillDefaults { buildRegistry defaultFlags with name := "ctlptl-registry" }).name =
      "ctlptl-registry" ∧
    ((FillDefaults { buildRegistry defaultFlags with name := "ctlptl-registry" }).proxy ≠ none ↔
      defaultFlags.proxyRemoteURL ≠ "") :=
  apply_called_once_with_built_resource happyEnv defaultFlags "ctlptl-registry"
    notFoundErr rfl rfl rfl

/-- The environment in which acquiring the analytics handle fails. -/
def badAnalyticsEnv : RunEnv :=
  { happyEnv with newAnalytics := some boomErr }

/-- Counterexample to C3 as stated: a failure acquiring the telemetry
handle changes the workflow's outcome — `run` returns the telemetry
error where the telemetry-succeeding execution returns success. -/
theorem telemetry_acquisition_failure_propagates :
    (run badAnalyticsEnv initialRegistry "r").err = some boomErr ∧
    (run happyEnv initialRegistry "r").err = none ∧
    (run badAnalyticsEnv initialRegistry "r").err ≠ (run happyEnv initialRegistry "r").err := by
  refine ⟨rfl, rfl, ?_⟩
  decide

/-- C3 amended: failures emitting the usage counter or flushing never
change `run`'s outcome (their results are discarded), but a failure
acquiring the telemetry handle aborts the workflow and is returned to
the caller verbatim. -/
theorem telemetry_emit_flush_ignored (env : RunEnv) (i1 f1 i2 f2 : Option GoError)
    (o : Registry) (n : String) :
    run { env with incrOutcome := i1, flushOutcome := f1 } o n =
      run { env with incrOutcome := i2, flushOutcome := f2 } o n ∧
    (∀ e, env.newAnalytics = some e → (run env o n).err = some e) := by
  refine ⟨rfl, ?_⟩
  intro e hA
  simp [run, hA]

/-- Witness for the amended C3 at a concrete input. -/
theorem telemetry_emit_flush_ignored_witness :
    run { badAnalyticsEnv with incrOutcome := some boomErr, flushOutcome := some boomErr }
        initialRegistry "r" =
      run { badAnalyticsEnv with incrOutcome := none, flushOutcome := none }
        initialRegistry "r" ∧
    (run badAnalyticsEnv initialRegistry "r").err = some boomErr :=
  ⟨(telemetry_emit_flush_ignored badAnalyticsEnv (some boomErr) (some boomErr) none none
      initialRegistry "r").1,
   (telemetry_emit_flush_ignored badAnalyticsEnv none none none none
      initialRegistry "r").2 boomErr rfl⟩

/-- The environment in which printer construction fails after a
successful `Apply`. -/
def printerFailEnv : RunEnv :=
  { happyEnv with toPrinter := Except.error boomErr }

/-- Counterexample to C4 as stated: when printer construction fails,
`run` returns an error even though `Apply` was called and succeeded —
a partial-success state. -/
theorem partial_success_state_exists :
    (run printerFailEnv initialRegistry "r").err = some boomErr ∧
    applyCalls (run printerFailEnv initialRegistry "r").trace =
      [FillDefaults { initialRegistry with name := "r" }] ∧
    (printerFailEnv.controller.apply
      (FillDefaults { initialRegistry with name := "r" })).2 = none := by
  refine ⟨rfl, ?_, rfl⟩
  decide

/-- C4 amended: if `run` succeeds, the resource was created by a single
successful `Apply` and handed to the printer; if `Apply` was never
called, `run` returns an error; but `run` may fail after a successful
`Apply` — exactly when printer construction or `PrintObj` fails. -/
theorem terminal_states (env : RunEnv) (o : Registry) (n : String) :
    ((run env o n).err = none →
      ∃ r, applyCalls (run env o n).trace = [r] ∧
        (env.controller.apply r).2 = none ∧
        Event.printObj (env.controller.apply r).1 ∈ (run env o n).trace) ∧
    (applyCalls (run env o n).trace = [] → (run env o n).err ≠ none) ∧
    (∀ r, applyCalls (run env o n).trace = [r] → (env.controller.apply r).2 = none →
      (run env o n).err ≠ none →
      (∃ e3, env.toPrinter = Except.error e3 ∧ (run env o n).err = some e3) ∨
      (∃ p, env.toPrinter = Except.ok p ∧
        (run env o n).err = p (env.controller.apply r).1)) := by
  rcases hA : env.newAnalytics with _ | eA
  case some => simp [run, hA, applyCalls]
  rcases hg : (env.controller.get (FillDefaults { o with name := n }).name).2 with _ | e
  case none => simp [run, hA, hg, applyCalls]
  rcases hnf : IsNotFound e with _ | _
  case false => simp [run, hA, hg, hnf, applyCalls]
  rcases hap : (env.controller.apply (FillDefaults { o with name := n })).2 with _ | e2
  case some => simp [run, hA, hg, hnf, hap, applyCalls]
  rcases hp : env.toPrinter with e3 | p
  · simp [run, hA, hg, hnf, hap, hp, applyCalls]
  · refine ⟨?_, ?_, ?_⟩
    · intro _
      refine ⟨FillDefaults { o with name := n }, ?_, hap, ?_⟩
      · simp [run, hA, hg, hnf, hap, hp, applyCalls]
      · simp [run, hA, hg, hnf, hap, hp]
    · intro hcalls
      simp [run, hA, hg, hnf, hap, hp, applyCalls] at hcalls
    · intro r hcalls _ _
      right
      refine ⟨p, rfl, ?_⟩
      simp [run, hA, hg, hnf, hap, hp, applyCalls] at hcalls ⊢
      rw [hcalls]

/-- Witness for the amended C4 at a concrete input: the all-succeeding
run creates exactly one resource and prints the applied value. -/
theorem terminal_states_witness :
    ∃ r, applyCalls (run happyEnv initialRegistry "r").trace = [r] ∧
      (happyEnv.controller.apply r).2 = none ∧
      Event.printObj (happyEnv.controller.apply r).1 ∈
        (run happyEnv initialRegistry "r").trace :=
  (terminal_states happyEnv initialRegistry "r").1 rfl

/-- C5: an error returned by `Apply` is surfaced by `run` verbatim —
the very same error value, with no wrapping — and `Apply` is called
exactly once. -/
theorem apply_error_surfaced_verbatim (env : RunEnv) (o : Registry) (n : String)
    (e e2 : GoError)
    (hA : env.newAnalytics = none)
    (hg : (env.controller.get n).2 = some e)
    (hnf : IsNotFound e = true)
    (hap : (env.controller.apply (FillDefaults { o with name := n })).2 = some e2) :
    (run env o n).err = some e2 ∧
    applyCalls (run env o n).trace = [FillDefaults { o with name := n }] := by
  have hg' : (env.controller.get (FillDefaults { o with name := n }).name).2 = some e := by
    simpa [FillDefaults] using hg
  constructor
  · simp [run, hA, hg', hnf, hap]
  · simp [run, hA, hg', hnf, hap, applyCalls]

/-- The environment in which `Apply` itself fails. -/
def applyFailEnv : RunEnv :=
  { happyEnv with
      controller := { happyController with apply := fun _ => (none, some boomErr) } }

/-- Witness for C5 at a concrete input: the failing `Apply`'s error is
returned unchanged after a single call. -/
theorem apply_error_surfaced_verbatim_witness :
    (run applyFailEnv initialRegistry "r").err = some boomErr ∧
    applyCalls (run applyFailEnv initialRegistry "r").trace =
      [FillDefaults { initialRegistry with name := "r" }] :=
  apply_error_surfaced_verbatim applyFailEnv initialRegistry "r"
    notFoundErr boomErr rfl rfl rfl rfl

/-- C6: the proxy sub-resource is built, as one atomic unit copying all
four flag values verbatim, exactly when `--proxy-remote-url` is
non-empty; in the docker.io scenario the remote URL is set and the
other three fields are empty strings. -/
theorem proxy_construction (f : Flags) :
    ((buildRegistry f).proxy =
      if f.proxyRemoteURL = "" then none
      else some { remoteURL := f.proxyRemoteURL
                  username := f.proxyUsername
                  password := f.proxyPassword
                  ttl := f.proxyTTL }) ∧
    (buildRegistry
        { defaultFlags with proxyRemoteURL := "https://registry-1.docker.io" }).proxy =
      some { remoteURL := "https://registry-1.docker.io"
             username := ""
             password := ""
             ttl := "" } := by
  constructor
  · by_cases h : f.proxyRemoteURL = "" <;>
      simp [buildRegistry, preRun, bindFlags, initialRegistry, h]
  · decide

/-- Counterexample to C7 as stated: on the telemetry-abort execution
the name is never assigned from the positional argument — `run` returns
before the assignment, the resource keeps its construction-time empty
name, and no call is made. -/
theorem name_not_assigned_on_telemetry_abort :
    (run badAnalyticsEnv (buildRegistry defaultFlags) "ctlptl-registry").reg.name = "" ∧
    (run badAnalyticsEnv (buildRegistry defaultFlags) "ctlptl-registry").reg.name ≠
      "ctlptl-registry" ∧
    (run badAnalyticsEnv (buildRegistry defaultFlags) "ctlptl-registry").trace = [] := by
  refine ⟨by decide, by decide, rfl⟩

/-- C7 amended: the name is absent after construction from flags, and
defaulting never changes a name; in every execution that acquires the
telemetry handle, the name is assigned from the positional argument
before defaulting and the existence check — `Get` is called with it,
every `Apply` argument carries it, and the final resource state still
carries it — while on the telemetry-abort execution `run` returns
before the assignment, leaving the resource exactly as constructed. -/
theorem name_assigned_once_after_acquisition (env : RunEnv) (f : Flags) (n : String) :
    (buildRegistry f).name = "" ∧
    (∀ r : Registry, (FillDefaults r).name = r.name) ∧
    (env.newAnalytics = none →
      (run env (buildRegistry f) n).reg.name = n ∧
      Event.getCall n ∈ (run env (buildRegistry f) n).trace ∧
      (∀ r, r ∈ applyCalls (run env (buildRegistry f) n).trace → r.name = n)) ∧
    (∀ eA, env.newAnalytics = some eA →
      (run env (buildRegistry f) n).reg = buildRegistry f ∧
      (run env (buildRegistry f) n).trace = []) := by
  have hb : (buildRegistry f).name = "" := by
    simp [buildRegistry, preRun, bindFlags, initialRegistry]
    by_cases h : f.proxyRemoteURL = "" <;> simp [h]
  have hname : (FillDefaults { buildRegistry f with name := n }).name = n := by
    simp [FillDefaults]
  refine ⟨hb, fun r => by simp [FillDefaults], ?_, ?_⟩
  · intro hA
    rcases hg : (env.controller.get n).2 with _ | e
    case none => simp [run, hA, hname, hg, applyCalls]
    rcases hnf : IsNotFound e with _ | _
    case false => simp [run, hA, hname, hg, hnf, applyCalls]
    rcases hap : (env.controller.apply
        (FillDefaults { buildRegistry f with name := n })).2 with _ | e2
    case some => simp [run, hA, hname, hg, hnf, hap, applyCalls]
    rcases hp : env.toPrinter with e3 | p <;>
      simp [run, hA, hname, hg, hnf, hap, hp, applyCalls]
  · intro eA hA
    simp [run, hA]

/-- Witness for the amended C7 at concrete inputs: the acquiring run
carries the positional name through `Get`, `Apply`, and the final
state, and the telemetry-abort run leaves the resource as built. -/
theorem name_assigned_once_after_acquisition_witness :
    ((run happyEnv (buildRegistry defaultFlags) "ctlptl-registry").reg.name =
        "ctlptl-registry" ∧
      Event.getCall "ctlptl-registry" ∈
        (run happyEnv (buildRegistry defaultFlags) "ctlptl-registry").trace ∧
      (∀ r, r ∈ applyCalls
          (run happyEnv (buildRegistry defaultFlags) "ctlptl-registry").trace →
        r.name = "ctlptl-registry")) ∧
    ((run badAnalyticsEnv (buildRegistry defaultFlags) "ctlptl-registry").reg =
        buildRegistry defaultFlags ∧
      (run badAnalyticsEnv (buildRegistry defaultFlags) "ctlptl-registry").trace = []) :=
  ⟨(name_assigned_once_after_acquisition happyEnv defaultFlags "ctlptl-registry").2.2.1 rfl,
   (name_assigned_once_after_acquisition badAnalyticsEnv defaultFlags
      "ctlptl-registry").2.2.2 boomErr rfl⟩

/-- C8: on the success path the object handed to `PrintObj` is exactly
the value returned by `Apply`, and a failure of printer construction or
of `PrintObj` becomes `run`'s returned error. -/
theorem printed_object_is_applied_resource (env : RunEnv) (o : Registry) (n : String)
    (e : GoError) (applied : Option Registry)
    (hA : env.newAnalytics = none)
    (hg : (env.controller.get n).2 = some e)
    (hnf : IsNotFound e = true)
    (hap : env.controller.apply (FillDefaults { o with name := n }) = (applied, none)) :
    (∀ e3, env.toPrinter = Except.error e3 → (run env o n).err = some e3) ∧
    (∀ p, env.toPrinter = Except.ok p →
      (run env o n).err = p applied ∧
      Event.printObj applied ∈ (run env o n).trace) := by
  have hg' : (env.controller.get (FillDefaults { o with name := n }).name).2 = some e := by
    simpa [FillDefaults] using hg
  constructor
  · intro e3 hp
    simp [run, hA, hg', hnf, hap, hp]
  · intro p hp
    constructor
    · simp [run, hA, hg', hnf, hap, hp]
    · simp [run, hA, hg', hnf, hap, hp]

/-- Witness for C8 at a concrete input: the applied resource is the one
printed and printing succeeds. -/
theorem printed_object_is_applied_resource_witness :
    (run happyEnv initialRegistry "r").err =
      okPrinter (some (FillDefaults { initialRegistry with name := "r" })) ∧
    Event.printObj (some (FillDefaults { initialRegistry with name := "r" })) ∈
      (run happyEnv initialRegistry "r").trace :=
  (printed_object_is_applied_resource happyEnv initialRegistry "r" notFoundErr
      (some (FillDefaults { initialRegistry with name := "r" }))
      rfl rfl rfl rfl).2 okPrinter rfl

/-- C9: the type/kind identifier is set once at construction and never
mutated: it survives flag binding and proxy assembly, every resource
submitted to `Apply` carries it, and after `run` completes the resource
still carries it — on every path, the telemetry-abort path included. -/
theorem typemeta_set_once_never_mutated (env : RunEnv) (f : Flags) (n : String) :
    (buildRegistry f).typeMeta = registryTypeMeta ∧
    (run env (buildRegistry f) n).reg.typeMeta = registryTypeMeta ∧
    (∀ r, r ∈ applyCalls (run env (buildRegistry f) n).trace →
      r.typeMeta = registryTypeMeta) := by
  have hb : (buildRegistry f).typeMeta = registryTypeMeta := by
    simp [buildRegistry, preRun, bindFlags, initialRegistry]
    by_cases h : f.proxyRemoteURL = "" <;> simp [h]
  have hname : (FillDefaults { buildRegistry f with name := n }).name = n := by
    simp [FillDefaults]
  have htm : (FillDefaults { buildRegistry f with name := n }).typeMeta =
      registryTypeMeta := by
    simp [FillDefaults, hb]
  refine ⟨hb, ?_⟩
  rcases hA : env.newAnalytics with _ | eA
  case some => simp [run, hA, applyCalls, hb]
  rcases hg : (env.controller.get n).2 with _ | e
  case none => simp [run, hA, hname, htm, hg, applyCalls]
  rcases hnf : IsNotFound e with _ | _
  case false => simp [run, hA, hname, htm, hg, hnf, applyCalls]
  rcases hap : (env.controller.apply
      (FillDefaults { buildRegistry f with name := n })).2 with _ | e2
  case some => simp [run, hA, hname, htm, hg, hnf, hap, applyCalls]
  rcases hp : env.toPrinter with e3 | p <;>
    simp [run, hA, hname, htm, hg, hnf, hap, hp, applyCalls]

/-- Witness for C9 at a concrete input: the resource `Apply` received
still carries the construction-time type identifier. -/
theorem typemeta_set_once_never_mutated_witness :
    (FillDefaults { buildRegistry defaultFlags with name := "r" }).typeMeta =
      registryTypeMeta :=
  (typemeta_set_once_never_mutated happyEnv defaultFlags "r").2.2
    (FillDefaults { buildRegistry defaultFlags with name := "r" }) (by decide)

/-- A `Get` implementation returning a nil resource and a nil error. -/
def nilNilGet : String → Option Registry × Option GoError :=
  fun _ => (none, none)

/-- A `Get` implementation returning a non-nil resource and a nil
error. -/
def foundGet : String → Option Registry × Option GoError :=
  fun _ => (some initialRegistry, none)

/-- C10: `run`'s outcome never depends on the resource value `Get`
returns, only on its error: two executions whose `Get`s agree on the
error component are identical, and a nil error paired with a nil
resource still yields the already-exists failure with no `Apply`. -/
theorem outcome_independent_of_got_registry (env : RunEnv)
    (g1 g2 : String → Option Registry × Option GoError) (o : Registry) (n : String)
    (h : ∀ s, (g1 s).2 = (g2 s).2) :
    run { env with controller := { env.controller with get := g1 } } o n =
      run { env with controller := { env.controller with get := g2 } } o n ∧
    (env.newAnalytics = none →
      g1 (FillDefaults { o with name := n }).name = (none, none) →
      (run { env with controller := { env.controller with get := g1 } } o n).err =
        some (fmtErrorf "Cannot create registry: already exists") ∧
      applyCalls
        (run { env with controller := { env.controller with get := g1 } } o n).trace = []) := by
  constructor
  · rcases hA : env.newAnalytics with _ | eA
    · have h2 := h (FillDefaults { o with name := n }).name
      rcases hg : (g1 (FillDefaults { o with name := n }).name).2 with _ | e <;>
        rw [hg] at h2 <;>
        simp [run, hA, hg, h2.symm]
    · simp [run, hA]
  · intro hA hg
    have hg2 : (g1 (FillDefaults { o with name := n }).name).2 = none := by
      rw [hg]
    constructor
    · simp [run, hA, hg2]
    · simp [run, hA, hg2, applyCalls]

/-- Witness for C10 at a concrete input: a nil-nil `Get` and a
found-resource `Get` produce identical runs, and the nil-nil `Get`
still aborts with already-exists, never calling `Apply`. -/
theorem outcome_independent_of_got_registry_witness :
    run { happyEnv with controller := { happyController with get := nilNilGet } }
        initialRegistry "r" =
      run { happyEnv with controller := { happyController with get := foundGet } }
        initialRegistry "r" ∧
    (run { happyEnv with controller := { happyController with get := nilNilGet } }
        initialRegistry "r").err =
      some (fmtErrorf "Cannot create registry: already exists") ∧
    applyCalls
      (run { happyEnv with controller := { happyController with get := nilNilGet } }
        initialRegistry "r").trace = [] :=
  ⟨(outcome_independent_of_got_registry happyEnv nilNilGet foundGet initialRegistry "r"
      (fun _ => rfl)).1,
   (outcome_independent_of_got_registry happyEnv nilNilGet foundGet initialRegistry "r"
      (fun _ => rfl)).2 rfl rfl⟩

end Ctlptl
